import Mathlib

/-!
A shallow embedding of `src/flask_app.py`, the CTA train-map backend: the
per-route Fetcher `fetch_route`, the parallel Aggregator behind
`GET /api/trains`, and the follow lookup behind `GET /api/train/<rn>`.

Upstream interaction is modelled by the value the handler observes: an
`Option JVal`, where `none` stands for any raised request failure (connection
error, timeout, or a body `resp.json()` cannot decode — all of them surface as
an exception caught by the handler's `except` clause) and `some data` for a
successfully decoded JSON body.  JSON numbers are modelled as integers; the
code inspects numbers only through Python `str()` against the sentinel `"0"`
and through truthiness, and no claim involves a fractional number.  The
thread pool in `api_trains` returns the per-route results in route-list order
(`ThreadPoolExecutor.map` preserves input order), so the aggregation is
modelled as the order-preserving map it observably is.
-/

namespace CtaMap

/-- A decoded JSON value as Python's `json` module represents it: `None`,
booleans, numbers, strings, lists, and dicts (insertion-ordered key/value
pairs, keys distinct after parsing). -/
inductive JVal where
  | null
  | bool (b : Bool)
  | num (n : Int)
  | str (s : String)
  | arr (items : List JVal)
  | obj (fields : List (String × JVal))

mutual

/-- Structural equality on JSON values (Python `==` on decoded JSON). -/
def JVal.beq : JVal → JVal → Bool
  | .null, .null => true
  | .bool a, .bool b => a == b
  | .num a, .num b => a == b
  | .str a, .str b => a == b
  | .arr xs, .arr ys => beqL xs ys
  | .obj xs, .obj ys => beqF xs ys
  | _, _ => false

/-- Elementwise `JVal.beq` on lists. -/
def beqL : List JVal → List JVal → Bool
  | [], [] => true
  | x :: xs, y :: ys => x.beq y && beqL xs ys
  | _, _ => false

/-- Pairwise `JVal.beq` on dict entries. -/
def beqF : List (String × JVal) → List (String × JVal) → Bool
  | [], [] => true
  | (k, v) :: xs, (l, w) :: ys => k == l && v.beq w && beqF xs ys
  | _, _ => false

end

/-- Soundness and completeness of `JVal.beq`, by the nested recursor. -/
def JVal.beq_eq (a : JVal) : ∀ b, (JVal.beq a b = true ↔ a = b) :=
  @JVal.rec (fun a => ∀ b, (JVal.beq a b = true ↔ a = b))
    (fun xs => ∀ ys, (beqL xs ys = true ↔ xs = ys))
    (fun fs => ∀ gs, (beqF fs gs = true ↔ fs = gs))
    (fun p => ∀ q : String × JVal, ((p.1 == q.1 && JVal.beq p.2 q.2) = true ↔ p = q))
    (fun b => by cases b <;> simp [JVal.beq])
    (fun x b => by cases b <;> simp [JVal.beq])
    (fun n b => by cases b <;> simp [JVal.beq])
    (fun s b => by cases b <;> simp [JVal.beq])
    (fun items ih b => by cases b <;> simp [JVal.beq, ih])
    (fun fields ih b => by cases b <;> simp [JVal.beq, ih])
    (fun ys => by cases ys <;> simp [beqL])
    (fun x xs ih1 ih2 ys => by cases ys <;> simp [beqL, ih1, ih2])
    (fun gs => by cases gs <;> simp [beqF])
    (fun p ps ih1 ih2 gs => by cases gs <;> simp [beqF, ih1, ih2])
    (fun k v ih q => by
      obtain ⟨l, w⟩ := q
      simp [ih, Prod.ext_iff])
    a

instance : DecidableEq JVal := fun a b =>
  decidable_of_iff (JVal.beq a b = true) (JVal.beq_eq a b)

/-- Key lookup in a decoded dict, first match (parsed dicts have distinct
keys, so first match is the match). -/
def lookupField : List (String × JVal) → String → Option JVal
  | [], _ => none
  | (k, v) :: rest, key => if k = key then some v else lookupField rest key

/-- Python dict item assignment `d[key] = v`: replace in place if the key is
present (dicts keep insertion order), append otherwise. -/
def setKey : List (String × JVal) → String → JVal → List (String × JVal)
  | [], key, v => [(key, v)]
  | (k, w) :: rest, key, v =>
    if k = key then (key, v) :: rest else (k, w) :: setKey rest key v

/-- Python `x.get(key, dflt)`.  On a dict it returns the value, or `dflt`
when the key is missing (a key present with value `null` yields `null`, not
`dflt`).  On any non-dict — including `None` — attribute lookup of `.get`
raises, modelled as `none`. -/
def pyGet (v : JVal) (key : String) (dflt : JVal) : Option JVal :=
  match v with
  | .obj fs => some ((lookupField fs key).getD dflt)
  | _ => none

/-- Python truthiness of a decoded JSON value: `None`, `False`, zero, and
empty strings/lists/dicts are falsy; everything else is truthy. -/
def pyTruthy : JVal → Bool
  | .null => false
  | .bool b => b
  | .num n => n != 0
  | .str s => s != ""
  | .arr [] => false
  | .arr (_ :: _) => true
  | .obj [] => false
  | .obj (_ :: _) => true

/-- Python `str()` of a decoded JSON value, used only against the sentinel
`"0"`.  CPython renders a dict or list as its `repr`, which begins with a
brace or bracket and hence never equals `"0"`; only that fact reaches the
sentinel comparison, so the element rendering is left abstract. -/
def pyStr : JVal → String
  | .null => "None"
  | .bool true => "True"
  | .bool false => "False"
  | .num n => toString n
  | .str s => s
  | .arr _ => "[...]"
  | .obj _ => "\x7b...\x7d"

/-- The schema coercion `if not isinstance(x, list): x = [x]` applied at the
route level, the train level, and the ETA level: a list stays itself, any
other value becomes a one-element list. -/
def coerceList : JVal → List JVal
  | .arr xs => xs
  | v => [v]

/-- Whether a value is a JSON mapping (a Python dict). -/
def isObj : JVal → Bool
  | .obj _ => true
  | _ => false

/-- The stamping step `t['rt'] = route` on one vehicle entry: on a dict it
sets the `rt` field (overwriting any upstream value of that key); on any
non-dict, item assignment raises, modelled as `none`. -/
def stamp (route : String) (t : JVal) : Option JVal :=
  match t with
  | .obj fs => some (.obj (setKey fs "rt" (.str route)))
  | _ => none

/-- The inner loop `for t in train_list: t['rt'] = route; trains.append(t)`:
stamp each entry in order; the first raising entry aborts the whole
`fetch_route` body (modelled as `none`), discarding everything stamped so
far. -/
def stampAll (route : String) : List JVal → Option (List JVal)
  | [] => some []
  | t :: ts =>
    match stamp route t with
    | none => none
    | some u =>
      match stampAll route ts with
      | none => none
      | some us => some (u :: us)

/-- One iteration of the route-entry loop body in `fetch_route`: read the
entry's `train` field (raises on a non-dict entry), skip the entry when the
field is missing or falsy (`continue`), otherwise coerce to a list and stamp
every vehicle. -/
def processRoute (route : String) (r : JVal) : Option (List JVal) :=
  match pyGet r "train" .null with
  | none => none
  | some train_list =>
    if pyTruthy train_list = false then some []
    else stampAll route (coerceList train_list)

/-- The full route-entry loop of `fetch_route` with its shared `trains`
accumulator: entries contribute in order into one flat list, and a raise in
any entry aborts the whole loop. -/
def processAll (route : String) : List JVal → Option (List JVal)
  | [] => some []
  | r :: rs =>
    match processRoute route r with
    | none => none
    | some ts =>
      match processAll route rs with
      | none => none
      | some tss => some (ts ++ tss)

/-- The Fetcher `fetch_route(route)` of `src/flask_app.py`.  `upstream` is
the observed outcome of the GET: `none` when the request or JSON decode
raised, `some data` for the decoded body.  Every failure path — raised
request, `.get` on a non-dict, a status field whose `str()` differs from
`"0"`, a missing or falsy `route` payload, or a raising vehicle entry —
returns the empty list, matching the `return []` branches and the
`except Exception: return []` handler. -/
def fetch_route (route : String) (upstream : Option JVal) : List JVal :=
  match upstream with
  | none => []
  | some data =>
    match pyGet data "ctatt" (.obj []) with
    | none => []
    | some ctatt =>
      match pyGet ctatt "errCd" .null with
      | none => []
      | some errCd =>
        if pyStr errCd ≠ "0" then []
        else
          match pyGet ctatt "route" .null with
          | none => []
          | some route_data =>
            if pyTruthy route_data = false then []
            else
              match processAll route (coerceList route_data) with
              | none => []
              | some trains => trains

/-- The configured route set, in source order. -/
def ROUTES : List String := ["red", "blue", "brn", "G", "org", "P", "pink", "Y"]

/-- The Aggregator over an arbitrary route list: one Fetcher call per route,
results concatenated in route-list order (`ThreadPoolExecutor.map` yields
results in input order, and the comprehension
`[t for batch in results for t in batch]` flattens them in that order). -/
def aggregate (routes : List String) (upstream : String → Option JVal) : List JVal :=
  (routes.map (fun r => fetch_route r (upstream r))).flatten

/-- The `GET /api/trains` handler: the Aggregator over the configured
`ROUTES`.  `upstream r` is the outcome route `r`'s fetch observed. -/
def api_trains (upstream : String → Option JVal) : List JVal :=
  aggregate ROUTES upstream

/-- One character of CPython's `str.isdigit`: true exactly when the
character's Unicode numeric type is Digit or Decimal.  Decimal covers the
decimal-digit characters (the ASCII digits among them); Digit additionally
covers characters that carry a digit value without being decimal digits,
such as the superscript digits — so `'²'.isdigit()` is true in CPython even
though `'²'` is not a decimal digit.  The table here is the fragment for
the Basic Latin, Latin-1 Supplement (`¹ ² ³`), and Superscripts and
Subscripts blocks (`⁰ ⁴`–`⁹`, `₀`–`₉`); on those blocks it agrees with
CPython exactly, and every string a theorem below evaluates lies in them.
CPython's full table further marks other scripts' digit characters true;
those are mapped to false here and no statement below quantifies over
them. -/
def pyCharIsDigit (c : Char) : Bool :=
  c.isDigit
  || c.toNat = 0xB2 || c.toNat = 0xB3 || c.toNat = 0xB9
  || c.toNat = 0x2070 || (0x2074 ≤ c.toNat && c.toNat ≤ 0x2079)
  || (0x2080 ≤ c.toNat && c.toNat ≤ 0x2089)

/-- Python `rn.isdigit()`: false on the empty string, true exactly when
every character has the Unicode digit property of `pyCharIsDigit`.  Note
this is strictly wider than "solely decimal digits": `pyIsdigit "²"` is
true. -/
def pyIsdigit (s : String) : Bool :=
  !s.data.isEmpty && s.data.all pyCharIsDigit

/-- In the source, the follow handler's GET executes exactly when the
`rn.isdigit()` guard passes: the guard returns 400 before any request is
built.  In particular the GET does execute for a run number such as `"²"`
that passes `isdigit` without consisting of decimal digits. -/
def follow_network_called (rn : String) : Bool := pyIsdigit rn

/-- The `GET /api/train/<rn>` handler `api_train_follow`, returning the JSON
body and the HTTP status code.  The digit guard answers 400 before any
upstream interaction; a raised request or decode (`upstream = none`), like
any raise inside the `try`, answers 502; a status field whose `str()`
differs from `"0"` answers 200 with `\x7b'eta': []\x7d` (no `position`
binding); otherwise the coerced ETA list and the raw `position` field are
returned with 200. -/
def api_train_follow (rn : String) (upstream : Option JVal) : JVal × Nat :=
  if pyIsdigit rn = false then
    (.obj [("error", .str "Invalid run number")], 400)
  else
    match upstream with
    | none => (.obj [("error", .str "Failed to fetch train details")], 502)
    | some data =>
      match pyGet data "ctatt" (.obj []) with
      | none => (.obj [("error", .str "Failed to fetch train details")], 502)
      | some ctatt =>
        match pyGet ctatt "errCd" .null with
        | none => (.obj [("error", .str "Failed to fetch train details")], 502)
        | some errCd =>
          if pyStr errCd ≠ "0" then
            (.obj [("eta", .arr [])], 200)
          else
            match pyGet ctatt "eta" (.arr []), pyGet ctatt "position" .null with
            | some etas, some position =>
              (.obj [("eta", .arr (coerceList etas)), ("position", position)], 200)
            | _, _ => (.obj [("error", .str "Failed to fetch train details")], 502)

/-- The follow contract of spec §4.3:
`Result<\x7betas, position: optional\x7d, ErrorKind>`. -/
inductive FollowOutcome where
  | invalidInput
  | upstreamUnavailable
  | ok (etas : List JVal) (position : Option JVal)
  deriving DecidableEq

/-- The ETA list a response body carries under its `eta` key. -/
def bodyEtas (body : JVal) : List JVal :=
  match body with
  | .obj fs =>
    match lookupField fs "eta" with
    | some (.arr es) => es
    | some v => [v]
    | none => []
  | _ => []

/-- The optional position a response body carries: a missing `position` key
and an explicit JSON `null` both denote the absent optional position of the
§4.3 contract. -/
def bodyPosition (body : JVal) : Option JVal :=
  match body with
  | .obj fs =>
    match lookupField fs "position" with
    | some .null => none
    | some v => some v
    | none => none
  | _ => none

/-- Contract-level reading of a follow response: 400 is `InvalidInput`, 502
is `UpstreamUnavailable`, and a 200 carries its ETA list and optional
position. -/
def followView (resp : JVal × Nat) : FollowOutcome :=
  if resp.2 = 400 then .invalidInput
  else if resp.2 = 502 then .upstreamUnavailable
  else .ok (bodyEtas resp.1) (bodyPosition resp.1)

/-- An upstream positions body whose envelope holds the given fields with
the route-level payload set to `routeVal`: surrounding fields are arbitrary,
so statements over `mkPositions` quantify over every well-formed envelope
shape around the field under study. -/
def mkPositions (rest ctattFs : List (String × JVal)) (routeVal : JVal) : JVal :=
  .obj (setKey rest "ctatt" (.obj (setKey ctattFs "route" routeVal)))

/-- An upstream follow body whose envelope holds the given fields with the
ETA payload set to `etaVal`. -/
def mkFollow (rest ctattFs : List (String × JVal)) (etaVal : JVal) : JVal :=
  .obj (setKey rest "ctatt" (.obj (setKey ctattFs "eta" etaVal)))

/-! ### Supporting lemmas -/

theorem lookup_setKey_self (fs : List (String × JVal)) (k : String) (v : JVal) :
    lookupField (setKey fs k v) k = some v := by
  induction fs with
  | nil => simp [setKey, lookupField]
  | cons p rest ih =>
    obtain ⟨l, w⟩ := p
    by_cases h : l = k <;> simp [setKey, lookupField, h, ih]

theorem lookup_setKey_ne (fs : List (String × JVal)) (k l : String) (v : JVal)
    (h : l ≠ k) : lookupField (setKey fs k v) l = lookupField fs l := by
  have hkl : k ≠ l := Ne.symm h
  induction fs with
  | nil => simp [setKey, lookupField, hkl]
  | cons p rest ih =>
    obtain ⟨m, w⟩ := p
    by_cases hm : m = k
    · subst hm
      simp [setKey, lookupField, hkl]
    · simp [setKey, lookupField, hm, ih]

theorem pyTruthy_arr_mid (l1 : List JVal) (x : JVal) (l2 : List JVal) :
    pyTruthy (.arr (l1 ++ x :: l2)) = true := by
  cases l1 <;> rfl

/-- Evaluation of the Fetcher on a payload built by `mkPositions`: the
envelope lookups resolve and only the status check, the truthiness check
and the route-entry loop remain. -/
theorem fetch_route_mk (route : String) (rest ctattFs : List (String × JVal))
    (V : JVal) :
    fetch_route route (some (mkPositions rest ctattFs V)) =
      if pyStr ((lookupField ctattFs "errCd").getD .null) ≠ "0" then []
      else if pyTruthy V = false then []
      else
        match processAll route (coerceList V) with
        | none => []
        | some trains => trains := by
  have h1 : lookupField (setKey ctattFs "route" V) "errCd" = lookupField ctattFs "errCd" :=
    lookup_setKey_ne ctattFs "route" "errCd" V (by decide)
  simp [fetch_route, mkPositions, pyGet, lookup_setKey_self, h1]

/-- Evaluation of the follow handler on a payload built by `mkFollow`. -/
theorem api_train_follow_mk (rn : String) (rest ctattFs : List (String × JVal))
    (E : JVal) :
    api_train_follow rn (some (mkFollow rest ctattFs E)) =
      if pyIsdigit rn = false then
        (.obj [("error", .str "Invalid run number")], 400)
      else if pyStr ((lookupField ctattFs "errCd").getD .null) ≠ "0" then
        (.obj [("eta", .arr [])], 200)
      else
        (.obj [("eta", .arr (coerceList E)),
               ("position", (lookupField ctattFs "position").getD .null)], 200) := by
  have h1 : lookupField (setKey ctattFs "eta" E) "errCd" = lookupField ctattFs "errCd" :=
    lookup_setKey_ne ctattFs "eta" "errCd" E (by decide)
  have h2 : lookupField (setKey ctattFs "eta" E) "position" = lookupField ctattFs "position" :=
    lookup_setKey_ne ctattFs "eta" "position" E (by decide)
  simp [api_train_follow, mkFollow, pyGet, lookup_setKey_self, h1, h2]

theorem processAll_congr_mid (route : String) (l1 l2 : List JVal) (x y : JVal)
    (h : processRoute route x = processRoute route y) :
    processAll route (l1 ++ x :: l2) = processAll route (l1 ++ y :: l2) := by
  induction l1 with
  | nil => simp [processAll, h]
  | cons r rs ih => simp [processAll, ih]

/-- The train-level coercion equivalence for one route entry, under the
hypothesis that the single train object is non-empty (hence truthy). -/
theorem processRoute_train_coerce (route : String) (rfs wfs : List (String × JVal))
    (h : wfs ≠ []) :
    processRoute route (.obj (setKey rfs "train" (.obj wfs)))
      = processRoute route (.obj (setKey rfs "train" (.arr [.obj wfs]))) := by
  cases wfs with
  | nil => exact absurd rfl h
  | cons p ps =>
    simp [processRoute, pyGet, lookup_setKey_self, pyTruthy, coerceList]

theorem stamp_none_of_not_obj (route : String) (bad : JVal) (h : isObj bad = false) :
    stamp route bad = none := by
  cases bad <;> simp_all [isObj, stamp]

theorem stampAll_none_mid (route : String) (l1 l2 : List JVal) (bad : JVal)
    (h : stamp route bad = none) :
    stampAll route (l1 ++ bad :: l2) = none := by
  induction l1 with
  | nil => simp [stampAll, h]
  | cons t ts ih =>
    cases hs : stamp route t with
    | none => simp [stampAll, hs]
    | some u => simp [stampAll, hs, ih]

theorem processAll_none_mid (route : String) (l1 l2 : List JVal) (x : JVal)
    (h : processRoute route x = none) :
    processAll route (l1 ++ x :: l2) = none := by
  induction l1 with
  | nil => simp [processAll, h]
  | cons r rs ih =>
    cases hr : processRoute route r with
    | none => simp [processAll, hr]
    | some ts => simp [processAll, hr, ih]

theorem aggregate_cons (r : String) (rs : List String)
    (upstream : String → Option JVal) :
    aggregate (r :: rs) upstream = fetch_route r (upstream r) ++ aggregate rs upstream := by
  simp [aggregate]

theorem aggregate_append (rs ts : List String) (upstream : String → Option JVal) :
    aggregate (rs ++ ts) upstream = aggregate rs upstream ++ aggregate ts upstream := by
  simp [aggregate, List.map_append, List.flatten_append]

theorem aggregate_congr (rs : List String) (o1 o2 : String → Option JVal)
    (h : ∀ r ∈ rs, o1 r = o2 r) :
    aggregate rs o1 = aggregate rs o2 := by
  induction rs with
  | nil => rfl
  | cons r rest ih =>
    rw [aggregate_cons, aggregate_cons, h r (List.mem_cons_self r rest),
      ih (fun q hq => h q (List.mem_cons_of_mem r hq))]

theorem stampAll_mem_shape (route : String) (ts us : List JVal) (u : JVal)
    (h : stampAll route ts = some us) (hu : u ∈ us) :
    ∃ fs, u = .obj (setKey fs "rt" (.str route)) := by
  induction ts generalizing us with
  | nil =>
    simp [stampAll] at h
    subst h
    simp at hu
  | cons t rest ih =>
    simp only [stampAll] at h
    cases hs : stamp route t with
    | none => rw [hs] at h; exact absurd h (by simp)
    | some v =>
      rw [hs] at h
      cases hr : stampAll route rest with
      | none => rw [hr] at h; exact absurd h (by simp)
      | some vs =>
        rw [hr] at h
        simp only [Option.some.injEq] at h
        subst h
        rcases List.mem_cons.mp hu with h1 | h2
        · subst h1
          cases t with
          | obj fs => exact ⟨fs, by simpa [stamp] using hs.symm⟩
          | null => simp [stamp] at hs
          | bool b => simp [stamp] at hs
          | num n => simp [stamp] at hs
          | str s => simp [stamp] at hs
          | arr xs => simp [stamp] at hs
        · exact ih vs hr h2

theorem processRoute_mem_shape (route : String) (r : JVal) (ts : List JVal) (u : JVal)
    (h : processRoute route r = some ts) (hu : u ∈ ts) :
    ∃ fs, u = .obj (setKey fs "rt" (.str route)) := by
  unfold processRoute at h
  cases hg : pyGet r "train" .null with
  | none => simp [hg] at h
  | some train_list =>
    simp only [hg] at h
    by_cases ht : pyTruthy train_list = false
    · rw [if_pos ht] at h
      simp only [Option.some.injEq] at h
      subst h
      simp at hu
    · rw [if_neg ht] at h
      exact stampAll_mem_shape route (coerceList train_list) ts u h hu

theorem processAll_mem_shape (route : String) (rs : List JVal) (ts : List JVal) (u : JVal)
    (h : processAll route rs = some ts) (hu : u ∈ ts) :
    ∃ fs, u = .obj (setKey fs "rt" (.str route)) := by
  induction rs generalizing ts with
  | nil =>
    simp [processAll] at h
    subst h
    simp at hu
  | cons r rest ih =>
    simp only [processAll] at h
    cases hr : processRoute route r with
    | none => rw [hr] at h; exact absurd h (by simp)
    | some vs =>
      rw [hr] at h
      cases hrest : processAll route rest with
      | none => rw [hrest] at h; exact absurd h (by simp)
      | some wss =>
        rw [hrest] at h
        simp only [Option.some.injEq] at h
        subst h
        rcases List.mem_append.mp hu with h1 | h2
        · exact processRoute_mem_shape route r vs u hr h1
        · exact ih wss hrest h2

/-- Every record the Fetcher returns is a dict whose `rt` field was just
written with the fetched route. -/
theorem fetch_route_mem_shape (route : String) (upstream : Option JVal) (t : JVal)
    (ht : t ∈ fetch_route route upstream) :
    ∃ fs, t = .obj (setKey fs "rt" (.str route)) := by
  unfold fetch_route at ht
  cases upstream with
  | none => simp at ht
  | some data =>
    cases hc : pyGet data "ctatt" (.obj []) with
    | none => simp [hc] at ht
    | some ctatt =>
      simp only [hc] at ht
      cases he : pyGet ctatt "errCd" .null with
      | none => simp [he] at ht
      | some errCd =>
        simp only [he] at ht
        by_cases hs : pyStr errCd ≠ "0"
        · rw [if_pos hs] at ht; simp at ht
        · rw [if_neg hs] at ht
          cases hr : pyGet ctatt "route" .null with
          | none => simp [hr] at ht
          | some route_data =>
            simp only [hr] at ht
            by_cases htr : pyTruthy route_data = false
            · rw [if_pos htr] at ht; simp at ht
            · rw [if_neg htr] at ht
              cases hp : processAll route (coerceList route_data) with
              | none => simp [hp] at ht
              | some trains =>
                simp only [hp] at ht
                exact processAll_mem_shape route (coerceList route_data) trains t hp ht

/-! ### Claims -/

/-- C2: `fetch(route)` is total — its result type is already a plain list,
so no error reaches the caller for any route and any upstream outcome — and
each documented failure outcome yields exactly the empty sequence: a raised
transport error, timeout or undecodable body (`upstream = none`); an
envelope whose status field, compared via `str()`, differs from the success
sentinel `"0"`; and a missing or empty (falsy) route-level payload. -/
theorem c2_total_failures_empty (route : String) :
    fetch_route route none = []
    ∧ (∀ data ctatt errCd, pyGet data "ctatt" (.obj []) = some ctatt →
        pyGet ctatt "errCd" .null = some errCd → pyStr errCd ≠ "0" →
        fetch_route route (some data) = [])
    ∧ (∀ data ctatt errCd route_data, pyGet data "ctatt" (.obj []) = some ctatt →
        pyGet ctatt "errCd" .null = some errCd →
        pyGet ctatt "route" .null = some route_data → pyTruthy route_data = false →
        fetch_route route (some data) = []) := by
  refine ⟨rfl, ?_, ?_⟩
  · intro data ctatt errCd hc he hne
    simp [fetch_route, hc, he, hne]
  · intro data ctatt errCd route_data hc he hr htr
    by_cases hs : pyStr errCd ≠ "0"
    · simp [fetch_route, hc, he, hs]
    · simp [fetch_route, hc, he, hs, hr, htr]

/-- C2 witness: concrete instances of each failure outcome (undecodable
body, status `104`, empty route payload) all return the empty list. -/
theorem c2_total_failures_empty_witness :
    fetch_route "red" none = []
    ∧ fetch_route "red" (some (.obj [("ctatt", .obj [("errCd", .num 104)])])) = []
    ∧ fetch_route "red" (some (.obj [("ctatt", .obj [("errCd", .str "0"),
        ("route", .arr [])])])) = [] :=
  ⟨(c2_total_failures_empty "red").1,
   (c2_total_failures_empty "red").2.1 _ (.obj [("errCd", .num 104)]) (.num 104)
     (by decide) (by decide) (by decide),
   (c2_total_failures_empty "red").2.2 _ (.obj [("errCd", .str "0"), ("route", .arr [])])
     (.str "0") (.arr []) (by decide) (by decide) (by decide) (by decide)⟩

/-- C3: for every route list and every combination of per-route upstream
outcomes, the Aggregator is exactly the concatenation of the per-route
Fetcher results in route-list order; its length is the sum of the per-route
lengths (no record dropped or duplicated); concatenation respects splitting
the route list; and the `/api/trains` handler is this aggregation over the
configured `ROUTES`. -/
theorem c3_aggregate_concat (routes rs ts : List String)
    (upstream : String → Option JVal) :
    aggregate routes upstream
        = (routes.map (fun r => fetch_route r (upstream r))).flatten
    ∧ (aggregate routes upstream).length
        = (routes.map (fun r => (fetch_route r (upstream r)).length)).sum
    ∧ aggregate (rs ++ ts) upstream = aggregate rs upstream ++ aggregate ts upstream
    ∧ api_trains upstream = aggregate ROUTES upstream := by
  refine ⟨rfl, ?_, aggregate_append rs ts upstream, rfl⟩
  simp only [aggregate, List.length_flatten, List.map_map]
  rfl

/-- C4: when one route's fetch fails (its outcome yields the empty list)
while the other routes' outcomes are whatever they are, the aggregate over
the full route list equals exactly the concatenation of the other routes'
results — computed under any outcome function agreeing with the actual one
away from the failing route, so no other route's result is affected by the
failure — and no error is raised (the aggregate is a plain list). -/
theorem c4_isolated_failure (pre post : List String) (f : String)
    (o oAlt : String → Option JVal)
    (hfail : fetch_route f (o f) = [])
    (hagree : ∀ r, r ≠ f → oAlt r = o r)
    (hpre : f ∉ pre) (hpost : f ∉ post) :
    aggregate (pre ++ f :: post) o = aggregate pre oAlt ++ aggregate post oAlt := by
  have epre : aggregate pre oAlt = aggregate pre o :=
    aggregate_congr pre oAlt o
      (fun r hr => hagree r (fun hrf => hpre (hrf ▸ hr)))
  have epost : aggregate post oAlt = aggregate post o :=
    aggregate_congr post oAlt o
      (fun r hr => hagree r (fun hrf => hpost (hrf ▸ hr)))
  rw [aggregate_append, aggregate_cons, hfail, epre, epost, List.nil_append]

/-- C4 witness: with the brown line's fetch timing out while red and blue
decode, the aggregate over `[red, brn, blue]` equals the red and blue
results alone, computed under an alternative outcome that even gives the
brown line a successful payload. -/
theorem c4_isolated_failure_witness :
    aggregate (["red"] ++ "brn" :: ["blue"])
        (fun r => if r = "brn" then none
          else if r = "red"
            then some (.obj [("ctatt", .obj [("errCd", .str "0"),
              ("route", .obj [("train", .obj [("a", .num 1)])])])])
            else some (.obj [("ctatt", .obj [("errCd", .num 104)])]))
      = aggregate ["red"]
          (fun r => if r = "brn"
            then some (.obj [("ctatt", .obj [("errCd", .str "0"),
              ("route", .obj [("train", .obj [("b", .num 2)])])])])
            else if r = "red"
              then some (.obj [("ctatt", .obj [("errCd", .str "0"),
                ("route", .obj [("train", .obj [("a", .num 1)])])])])
              else some (.obj [("ctatt", .obj [("errCd", .num 104)])]))
        ++ aggregate ["blue"]
          (fun r => if r = "brn"
            then some (.obj [("ctatt", .obj [("errCd", .str "0"),
              ("route", .obj [("train", .obj [("b", .num 2)])])])])
            else if r = "red"
              then some (.obj [("ctatt", .obj [("errCd", .str "0"),
                ("route", .obj [("train", .obj [("a", .num 1)])])])])
              else some (.obj [("ctatt", .obj [("errCd", .num 104)])])) :=
  c4_isolated_failure ["red"] ["blue"] "brn" _ _
    (by decide)
    (fun r hr => by simp [hr])
    (by decide) (by decide)

/-- C5: every record in the Aggregator's output is a dict carrying in its
`rt` field exactly the configured route identifier it was fetched under —
stamped by the Fetcher, overwriting any upstream `rt` value. -/
theorem c5_stamped_route (upstream : String → Option JVal) (t : JVal)
    (ht : t ∈ api_trains upstream) :
    ∃ r, r ∈ ROUTES ∧ t ∈ fetch_route r (upstream r)
      ∧ ∃ fs, t = .obj fs ∧ lookupField fs "rt" = some (.str r) := by
  simp only [api_trains, aggregate] at ht
  obtain ⟨batch, hb, htb⟩ := List.mem_flatten.mp ht
  obtain ⟨r, hr, rfl⟩ := List.mem_map.mp hb
  obtain ⟨fs, rfl⟩ := fetch_route_mem_shape r (upstream r) t htb
  exact ⟨r, hr, htb, setKey fs "rt" (.str r),
    rfl, lookup_setKey_self fs "rt" (.str r)⟩

/-- C5 witness: a record aggregated from the red line's payload — whose
upstream even carried a conflicting `rt` value — is stamped `rt = "red"`. -/
theorem c5_stamped_route_witness :
    ∃ r, r ∈ ROUTES
      ∧ JVal.obj [("rt", .str "red")] ∈ fetch_route r
          ((fun q => if q = "red"
            then some (.obj [("ctatt", .obj [("errCd", .str "0"),
              ("route", .obj [("train", .obj [("rt", .str "bogus")])])])])
            else none) r)
      ∧ ∃ fs, JVal.obj [("rt", .str "red")] = .obj fs
          ∧ lookupField fs "rt" = some (.str r) :=
  c5_stamped_route _ (JVal.obj [("rt", .str "red")]) (by decide)

/-- C9: the Fetcher is a pure function of the route and the upstream
snapshot it observed — it reads no mutable global and mutates only data
decoded freshly inside the call — so two calls against the same unchanged
snapshot yield identical normalized output. -/
theorem c9_fetch_idempotent (route : String) (snapshot : Option JVal) :
    fetch_route route snapshot = fetch_route route snapshot := rfl

/-- C6: the guard of the follow handler is `rn.isdigit()`, and CPython's
`isdigit` accepts characters carrying the Unicode Digit numeric type that
are not decimal digits.  Evaluated at the failing input `"²"` (superscript
two, U+00B2) — a string not consisting solely of decimal digits, indeed
containing no decimal digit at all — the guard passes, the network call is
made, and the handler answers 502 against a timed-out upstream or the
empty 200 success against a non-success status, never the claimed 400
invalid-input failure.  At `"abc"`, every character of which also fails
the `isdigit` test, the claimed 400-with-no-network-call does hold. -/
theorem c6_isdigit_guard_bug :
    (∀ c ∈ "²".data, c.isDigit = false)
    ∧ pyIsdigit "²" = true
    ∧ follow_network_called "²" = true
    ∧ api_train_follow "²" none
        = (.obj [("error", .str "Failed to fetch train details")], 502)
    ∧ api_train_follow "²" (some (.obj [("ctatt", .obj [("errCd", .num 104)])]))
        = (.obj [("eta", .arr [])], 200)
    ∧ api_train_follow "abc" none
        = (.obj [("error", .str "Invalid run number")], 400)
    ∧ followView (api_train_follow "abc" none) = .invalidInput
    ∧ follow_network_called "abc" = false := by decide

/-- C7: for an all-digit run number, when the follow request decodes but the
envelope's status field differs from the success sentinel, the handler
answers 200 with an empty ETA list and no position — at the §4.3 contract
level the successful result `ok [] none`, an empty ETA sequence with a null
position, not an error. -/
theorem c7_nonsuccess_empty_ok (rn : String) (data ctatt errCd : JVal)
    (hd : pyIsdigit rn = true)
    (hc : pyGet data "ctatt" (.obj []) = some ctatt)
    (he : pyGet ctatt "errCd" .null = some errCd)
    (hne : pyStr errCd ≠ "0") :
    api_train_follow rn (some data) = (.obj [("eta", .arr [])], 200)
    ∧ followView (api_train_follow rn (some data)) = .ok [] none := by
  have h1 : api_train_follow rn (some data) = (.obj [("eta", .arr [])], 200) := by
    simp [api_train_follow, hd, hc, he, hne]
  exact ⟨h1, by rw [h1]; rfl⟩

/-- C7 witness: `followRun("12345")` against status 104 is the empty
success. -/
theorem c7_nonsuccess_empty_ok_witness :
    api_train_follow "12345" (some (.obj [("ctatt", .obj [("errCd", .num 104)])]))
      = (.obj [("eta", .arr [])], 200)
    ∧ followView (api_train_follow "12345"
        (some (.obj [("ctatt", .obj [("errCd", .num 104)])]))) = .ok [] none :=
  c7_nonsuccess_empty_ok "12345" _ (.obj [("errCd", .num 104)]) (.num 104)
    (by decide) (by decide) (by decide) (by decide)

/-- C8: for an all-digit run number, a failed follow request — transport
error, timeout, or undecodable body, all of which raise and surface as
`upstream = none` — answers 502 with the explicit error body, a
`FollowOutcome` distinct from the empty-success `ok [] none` of the
non-success-status case (indeed from every `ok` result). -/
theorem c8_transport_failure_502 (rn : String) (hd : pyIsdigit rn = true) :
    api_train_follow rn none = (.obj [("error", .str "Failed to fetch train details")], 502)
    ∧ followView (api_train_follow rn none) = .upstreamUnavailable
    ∧ ∀ etas position, FollowOutcome.upstreamUnavailable ≠ FollowOutcome.ok etas position := by
  have h1 : api_train_follow rn none
      = (.obj [("error", .str "Failed to fetch train details")], 502) := by
    simp [api_train_follow, hd]
  exact ⟨h1, by rw [h1]; rfl, fun etas position h => FollowOutcome.noConfusion h⟩

/-- C8 witness: `followRun("12345")` against a timeout is the 502 failure,
distinct from the empty success. -/
theorem c8_transport_failure_502_witness :
    api_train_follow "12345" none
      = (.obj [("error", .str "Failed to fetch train details")], 502)
    ∧ followView (api_train_follow "12345" none) = .upstreamUnavailable
    ∧ ∀ etas position, FollowOutcome.upstreamUnavailable ≠ FollowOutcome.ok etas position :=
  c8_transport_failure_502 "12345" (by decide)

/-- C10: if any vehicle entry in the train list of a route entry is not a
mapping, stamping it raises, the exception aborts the whole `fetch_route`
body and the `except` clause returns the empty list for the entire route —
every well-formed record already collected (before it, around it, or in
other route entries) is discarded rather than returned partially. -/
theorem c10_bad_entry_discards_route (route : String)
    (rest ctattFs rfs : List (String × JVal))
    (rpre rpost tpre tpost : List JVal) (bad : JVal)
    (hbad : isObj bad = false) :
    fetch_route route (some (mkPositions rest ctattFs
        (.arr (rpre ++ .obj (setKey rfs "train" (.arr (tpre ++ bad :: tpost))) :: rpost))))
      = [] := by
  rw [fetch_route_mk]
  by_cases hs : pyStr ((lookupField ctattFs "errCd").getD .null) ≠ "0"
  · rw [if_pos hs]
  · rw [if_neg hs, pyTruthy_arr_mid]
    have hentry : processRoute route
        (.obj (setKey rfs "train" (.arr (tpre ++ bad :: tpost)))) = none := by
      simp only [processRoute, pyGet, lookup_setKey_self, Option.getD_some]
      rw [pyTruthy_arr_mid]
      simp only [Bool.true_eq_false, if_false, coerceList]
      exact stampAll_none_mid route tpre tpost bad (stamp_none_of_not_obj route bad hbad)
    rw [show coerceList (.arr (rpre ++ .obj (setKey rfs "train"
        (.arr (tpre ++ bad :: tpost))) :: rpost))
        = rpre ++ .obj (setKey rfs "train" (.arr (tpre ++ bad :: tpost))) :: rpost from rfl]
    rw [processAll_none_mid route rpre rpost _ hentry]
    simp

/-- C10 witness: one malformed (string) vehicle entry makes the red line's
fetch return nothing, discarding the well-formed records before and after
it and in the other route entry. -/
theorem c10_bad_entry_discards_route_witness :
    fetch_route "red" (some (mkPositions [] [("errCd", JVal.str "0")]
        (.arr ([.obj [("train", .obj [("c", .num 3)])]]
          ++ .obj (setKey [] "train" (.arr ([.obj [("a", .num 1)]]
              ++ JVal.str "oops" :: [.obj [("b", .num 2)]])))
            :: [.obj [("train", .obj [("d", .num 4)])]]))))
      = [] :=
  c10_bad_entry_discards_route "red" [] [("errCd", JVal.str "0")] []
    [.obj [("train", .obj [("c", .num 3)])]] [.obj [("train", .obj [("d", .num 4)])]]
    [.obj [("a", .num 1)]] [.obj [("b", .num 2)]] (JVal.str "oops") (by decide)

/-- C1 counterexample: the claimed equivalence fails one level deeper, at
the vehicle-list field.  With a route entry whose `train` field is the
single (empty) object, the falsy-value guard `if not train_list: continue`
skips the entry and the red line's fetch is empty; with the one-element list
containing that object the guard passes and the object is stamped and
returned.  The two payloads differ only in that coercion, yet the outputs
differ. -/
theorem c1_coercion_equiv_counterexample :
    fetch_route "red" (some (JVal.obj [("ctatt", .obj [("errCd", .str "0"),
        ("route", .obj [("train", .obj [])])])]))
      ≠
    fetch_route "red" (some (JVal.obj [("ctatt", .obj [("errCd", .str "0"),
        ("route", .obj [("train", .arr [.obj []])])])])) := by decide

/-- C1 amended: the single-object/one-element-sequence equivalence holds at
the route level for every object (over any envelope and any surrounding
fields), at the vehicle-list level for every non-empty object (a truthy
dict; the empty object is skipped by the falsiness guard while its
one-element list is stamped, the counterexample above), and at the ETA
field of the follow handler for every object without restriction. -/
theorem c1_coercion_equiv_amended (route rn : String)
    (rest ctattFs rfs efs fs wfs : List (String × JVal)) (rpre rpost : List JVal) :
    (fetch_route route (some (mkPositions rest ctattFs (.obj fs)))
      = fetch_route route (some (mkPositions rest ctattFs (.arr [.obj fs]))))
    ∧ (wfs ≠ [] →
        fetch_route route (some (mkPositions rest ctattFs
            (.arr (rpre ++ .obj (setKey rfs "train" (.obj wfs)) :: rpost))))
        = fetch_route route (some (mkPositions rest ctattFs
            (.arr (rpre ++ .obj (setKey rfs "train" (.arr [.obj wfs])) :: rpost)))))
    ∧ (api_train_follow rn (some (mkFollow rest ctattFs (.obj efs)))
        = api_train_follow rn (some (mkFollow rest ctattFs (.arr [.obj efs])))) := by
  refine ⟨?_, fun hw => ?_, ?_⟩
  · rw [fetch_route_mk, fetch_route_mk]
    by_cases hs : pyStr ((lookupField ctattFs "errCd").getD .null) ≠ "0"
    · simp only [if_pos hs]
    · simp only [if_neg hs]
      cases fs with
      | nil => rfl
      | cons p ps => rfl
  · rw [fetch_route_mk, fetch_route_mk]
    by_cases hs : pyStr ((lookupField ctattFs "errCd").getD .null) ≠ "0"
    · simp only [if_pos hs]
    · simp only [if_neg hs, pyTruthy_arr_mid]
      have hcore : processAll route
          (rpre ++ .obj (setKey rfs "train" (.obj wfs)) :: rpost)
          = processAll route
          (rpre ++ .obj (setKey rfs "train" (.arr [.obj wfs])) :: rpost) :=
        processAll_congr_mid route rpre rpost _ _
          (processRoute_train_coerce route rfs wfs hw)
      simp only [coerceList, hcore]
  · rw [api_train_follow_mk, api_train_follow_mk]
    rfl

/-- C1 amended witness: the three equivalences at a concrete payload — a
route-level single object, a non-empty single train object, and a
single-object ETA field. -/
theorem c1_coercion_equiv_amended_witness :
    (fetch_route "red" (some (mkPositions [] [("errCd", JVal.str "0")] (.obj [])))
      = fetch_route "red" (some (mkPositions [] [("errCd", JVal.str "0")] (.arr [.obj []]))))
    ∧ (fetch_route "red" (some (mkPositions [] [("errCd", JVal.str "0")]
          (.arr ([] ++ .obj (setKey [] "train" (.obj [("destNm", JVal.str "Howard")])) :: []))))
        = fetch_route "red" (some (mkPositions [] [("errCd", JVal.str "0")]
          (.arr ([] ++ .obj (setKey [] "train" (.arr [.obj [("destNm", JVal.str "Howard")]])) :: [])))))
    ∧ (api_train_follow "12345" (some (mkFollow [] [("errCd", JVal.str "0")] (.obj [])))
        = api_train_follow "12345" (some (mkFollow [] [("errCd", JVal.str "0")] (.arr [.obj []])))) :=
  ⟨(c1_coercion_equiv_amended "red" "12345" [] [("errCd", JVal.str "0")] [] [] []
      [("destNm", JVal.str "Howard")] [] []).1,
   (c1_coercion_equiv_amended "red" "12345" [] [("errCd", JVal.str "0")] [] [] []
      [("destNm", JVal.str "Howard")] [] []).2.1 (by decide),
   (c1_coercion_equiv_amended "red" "12345" [] [("errCd", JVal.str "0")] [] [] []
      [("destNm", JVal.str "Howard")] [] []).2.2⟩

end CtaMap
